import Mathlib

/-!
Shallow embedding of the Stryker mutation-testing coordinator
(src/Stryker.ts) and proofs about it.

The embedding models the `Stryker` class: its constructor (configuration
reading, config writers, recursive freezing) and `runMutationTest`
(baseline gate, mutant generation, mutant/run matching, mutation
execution, reporter wrap-up), together with the helper methods
`filterOutUnsuccesfulResults`, `logInitialTestRunSucceeded` and
`logFailedTests`.

External collaborators (InputFileResolver, TestRunnerOrchestrator,
MutatorOrchestrator, MutantRunResultMatcher, the reporter) are modelled
as inputs in a `StrykerEnv` record: the coordinator only passes data
between them, so each is a function or a value supplied by the
environment.  Calls into collaborators and log output are recorded in an
event trace, so that claims about "X is invoked / never invoked" become
statements about the trace.

JavaScript specifics reflected here:
* `RunResult.succeeded` and `RunResult.failed` are optional numbers in
  stryker-api; every use in Stryker.ts is a truthiness test
  (`!runResult.failed`, `if (result.succeeded)`) under which `undefined`
  and `0` are indistinguishable, so they are modelled as `Nat` with `0`
  standing for both.
* lodash `_.uniq` keeps the first occurrence of each element; it is
  modelled by `uniq` below.
* `Array.prototype.sort()` on strings sorts lexicographically by code
  unit; it is modelled by `sortStrings`, an insertion sort with the
  lexicographic code-point order on `String`.
* a rejected promise skips the fulfilled handler of a following
  `.then(onFulfilled)`; promise chaining is modelled with `Except`.
-/

namespace Stryker

/-- TestResult from stryker-api/test_runner: the overall status of one
test run batch. -/
inductive TestResult where
  | Complete
  | Error
  | Timeout
deriving DecidableEq, Repr

/-- RunResult from stryker-api/test_runner, restricted to the fields
Stryker.ts reads: overall status, the test names of the batch, the
succeeded and failed counts, and the error messages. -/
structure RunResult where
  result : TestResult
  testNames : List String
  succeeded : Nat
  failed : Nat
  errorMessages : List String
deriving DecidableEq, Repr

/-- InputFile as produced by InputFileResolver: a path plus the
shouldMutate flag. -/
structure InputFile where
  path : String
  shouldMutate : Bool
deriving DecidableEq, Repr

/-- Mutant as produced by MutatorOrchestrator.generateMutants.  The
coordinator never inspects a mutant, it only passes mutants between
collaborators, so a single identifying field suffices. -/
structure Mutant where
  id : Nat
deriving DecidableEq, Repr

/-- MutantResult from stryker-api/report, as returned by
testRunnerOrchestrator.runMutations.  The coordinator never inspects a
mutant result. -/
structure MutantResult where
  id : Nat
deriving DecidableEq, Repr

/-- Stryker.filterOutUnsuccesfulResults:
`runResults.filter(runResult => !(!runResult.failed && runResult.result === TestResult.Complete))`. -/
def filterOutUnsuccesfulResults (runResults : List RunResult) : List RunResult :=
  runResults.filter
    (fun runResult => !(runResult.failed == 0 && runResult.result == TestResult.Complete))

/-- Lexicographic comparison of character lists by code point, modelling
the code-unit comparison performed by the default JavaScript string
sort. -/
def strLeAux : List Char → List Char → Bool
  | [], _ => true
  | _ :: _, [] => false
  | a :: as, b :: bs =>
    if a.toNat < b.toNat then true
    else if b.toNat < a.toNat then false
    else strLeAux as bs

/-- Comparison used to model the default JavaScript string sort:
lexicographic order on the characters of the strings. -/
def stringLe (a b : String) : Bool := strLeAux a.data b.data

/-- Propositional form of `stringLe`, the order by which the diagnostics
are sorted. -/
def stringLeP (a b : String) : Prop := stringLe a b = true

instance : DecidableRel stringLeP := fun a b => Bool.decEq (stringLe a b) true

/-- Model of `Array.prototype.sort()` with the default comparator, on a
list of strings: sorts lexicographically. -/
def sortStrings (xs : List String) : List String := List.insertionSort stringLeP xs

/-- Helper for `uniq`, carrying the set of already seen elements. -/
def uniqAux (seen : List String) : List String → List String
  | [] => []
  | x :: xs => if x ∈ seen then uniqAux seen xs else x :: uniqAux (x :: seen) xs

/-- Model of lodash `_.uniq`: removes duplicates, keeping the first
occurrence of each element. -/
def uniq (xs : List String) : List String := uniqAux [] xs

/-- The `failedSpecNames` value computed in Stryker.logFailedTests:
`_.uniq(_.flatten(unsuccessfulTests.filter(r => r.result === Complete).map(r => r.testNames))).sort()`. -/
def failedSpecNames (unsuccessfulTests : List RunResult) : List String :=
  sortStrings (uniq ((unsuccessfulTests.filter
      (fun runResult => runResult.result == TestResult.Complete)).map
      (fun runResult => runResult.testNames)).flatten)

/-- The `errors` value computed in Stryker.logFailedTests:
`_.flatten(unsuccessfulTests.filter(r => r.result === Error).map(r => r.errorMessages)).sort()`.
Note: unlike `failedSpecNames`, no `_.uniq` is applied here. -/
def initialRunErrors (unsuccessfulTests : List RunResult) : List String :=
  sortStrings (((unsuccessfulTests.filter
      (fun runResult => runResult.result == TestResult.Error)).map
      (fun runResult => runResult.errorMessages)).flatten)

/-- Observable actions of runMutationTest: log output and calls into the
external collaborators, in the order they happen. -/
inductive Event where
  | logInitialSucceeded (totalAmountOfTests : Nat)
  | generateMutants (paths : List String)
  | logMutantsGenerated (count : Nat)
  | matchWithMutants (mutants : List Mutant) (runResults : List RunResult)
  | runMutations (mutants : List Mutant)
  | wrapUp
  | awaitWrapUp
  | logFailedNames (names : List String)
  | logErrors (messages : List String)
deriving DecidableEq, Repr

/-- Events representing mutant work: mutant generation, mutant/run
matching, and mutation execution. -/
def Event.isMutationPipelineWork : Event → Bool
  | .generateMutants _ => true
  | .matchWithMutants _ _ => true
  | .runMutations _ => true
  | _ => false

/-- Events representing an invocation of the mutant generator. -/
def Event.isGenerateMutants : Event → Bool
  | .generateMutants _ => true
  | _ => false

/-- Stryker.logFailedTests: emits the failed-spec-names diagnostic when
there is at least one name, and the error-messages diagnostic when there
is at least one message. -/
def logFailedTests (unsuccessfulTests : List RunResult) : List Event :=
  (if (failedSpecNames unsuccessfulTests).length > 0
    then [Event.logFailedNames (failedSpecNames unsuccessfulTests)] else [])
  ++ (if (initialRunErrors unsuccessfulTests).length > 0
    then [Event.logErrors (initialRunErrors unsuccessfulTests)] else [])

/-- The total computed by Stryker.logInitialTestRunSucceeded:
`runResults.forEach(result => { if (result.succeeded) { totalAmountOfTests += result.succeeded; } })`. -/
def totalAmountOfTests (runResults : List RunResult) : Nat :=
  runResults.foldl
    (fun total result => if result.succeeded != 0 then total + result.succeeded else total) 0

/-- The fatal error raised when the initial (baseline) test run was not
clean.  Stryker.ts throws a generic JavaScript Error whose message reads
"There were failed tests in the initial test run"; the design names this
fatal condition InitialRunFailed. -/
inductive StrykerError where
  | initialRunFailed
deriving DecidableEq, Repr

/-- The external collaborators of runMutationTest, as resolved values and
functions: the resolved input files, the results of the initial test run,
the mutant generator, the mutation execution loop, and whether the
reporter wrapUp returns a promise. -/
structure StrykerEnv where
  inputFiles : List InputFile
  initialRunResults : List RunResult
  generateMutants : List String → List Mutant
  runMutations : List Mutant → List MutantResult
  wrapUpIsPromise : Bool

/-- Stryker.runMutationTest.  After the input files are resolved and the
initial run completes (both supplied by the environment), the baseline
gate checks `unsuccessfulTests.length === 0`.  On success it logs the
initial-run total, generates mutants from the shouldMutate input files,
matches mutants with run results, runs the mutations, and wraps up the
reporter (awaiting the result when it is a promise), resolving with the
mutant results.  On failure it logs the failed tests and rejects; the
rejection skips the wrap-up `.then` handler. -/
def runMutationTest (env : StrykerEnv) :
    Except StrykerError (List MutantResult) × List Event :=
  let runResults := env.initialRunResults
  let unsuccessfulTests := filterOutUnsuccesfulResults runResults
  if unsuccessfulTests.length = 0 then
    let paths := (env.inputFiles.filter (fun inputFile => inputFile.shouldMutate)).map
      (fun file => file.path)
    let mutants := env.generateMutants paths
    let mutantResults := env.runMutations mutants
    (Except.ok mutantResults,
      Event.logInitialSucceeded (totalAmountOfTests runResults)
        :: Event.generateMutants paths
        :: Event.logMutantsGenerated mutants.length
        :: Event.matchWithMutants mutants runResults
        :: Event.runMutations mutants
        :: Event.wrapUp
        :: (if env.wrapUpIsPromise then [Event.awaitWrapUp] else []))
  else
    (Except.error StrykerError.initialRunFailed, logFailedTests unsuccessfulTests)

/-- Configuration value: a mapping from option name to value, where
values may be primitives, sequences or nested mappings.  Each composite
node carries a frozen flag, modelling whether Object.freeze has been
applied to it. -/
inductive ConfigValue where
  | prim (value : String)
  | arr (frozen : Bool) (items : List ConfigValue)
  | obj (frozen : Bool) (fields : List (String × ConfigValue))

mutual

/-- Modelled from the spec: `freezeRecursively` lives in
utils/objectUtils, which is not part of the provided source; the spec
describes it as a recursive, idempotent immutability wrapper that
freezes the configuration recursively, including nested mapping and
sequence values.  It marks every composite node frozen. -/
def freezeRecursively : ConfigValue → ConfigValue
  | .prim v => .prim v
  | .arr _ items => .arr true (freezeItems items)
  | .obj _ fields => .obj true (freezeFields fields)

/-- Recursive freezing of the items of a sequence value. -/
def freezeItems : List ConfigValue → List ConfigValue
  | [] => []
  | v :: vs => freezeRecursively v :: freezeItems vs

/-- Recursive freezing of the fields of a mapping value. -/
def freezeFields : List (String × ConfigValue) → List (String × ConfigValue)
  | [] => []
  | (k, v) :: fs => (k, freezeRecursively v) :: freezeFields fs

end

mutual

/-- Predicate: every composite node of the configuration value is
frozen, so no part of it can be mutated. -/
def allFrozen : ConfigValue → Bool
  | .prim _ => true
  | .arr frozen items => frozen && allFrozenItems items
  | .obj frozen fields => frozen && allFrozenFields fields

/-- Every node in a list of sequence items is recursively frozen. -/
def allFrozenItems : List ConfigValue → Bool
  | [] => true
  | v :: vs => allFrozen v && allFrozenItems vs

/-- Every node in a list of mapping fields is recursively frozen. -/
def allFrozenFields : List (String × ConfigValue) → Bool
  | [] => true
  | (_, v) :: fs => allFrozen v && allFrozenFields fs

end

/-- Stryker.applyConfigWriters: each known config writer is applied to
the config in turn, each one free to rewrite it. -/
def applyConfigWriters (configWriters : List (ConfigValue → ConfigValue))
    (config : ConfigValue) : ConfigValue :=
  configWriters.foldl (fun c writer => writer c) config

/-- The configuration produced by the Stryker constructor: it reads the
config, loads plugins, applies all config writers, and finally calls
freezeConfig, which applies freezeRecursively to the config.  Plugin
loading and log-level setting do not touch the config value. -/
def strykerConstructorConfig (initialConfig : ConfigValue)
    (configWriters : List (ConfigValue → ConfigValue)) : ConfigValue :=
  freezeRecursively (applyConfigWriters configWriters initialConfig)

/-- Example environment whose initial run has a failed test: one
Complete run with one failure. -/
def envInitialRunFailed : StrykerEnv :=
  ⟨[⟨"a.js", true⟩],
   [⟨TestResult.Complete, ["t1", "t2"], 1, 1, []⟩],
   fun paths => [⟨paths.length⟩],
   fun mutants => mutants.map (fun m => ⟨m.id⟩),
   false⟩

/-- Example environment with a clean initial run and a mix of
shouldMutate flags, used to exercise mutant generation. -/
def envMutateSelection : StrykerEnv :=
  ⟨[⟨"a.js", true⟩, ⟨"spec.js", false⟩, ⟨"b.js", true⟩],
   [⟨TestResult.Complete, ["t1", "t2"], 2, 0, []⟩],
   fun paths => [⟨paths.length⟩],
   fun mutants => mutants.map (fun m => ⟨m.id⟩),
   false⟩

/-- Example environment with a clean initial run and a reporter whose
wrapUp returns a promise. -/
def envWrapUpPromise : StrykerEnv :=
  ⟨[⟨"a.js", true⟩],
   [⟨TestResult.Complete, ["t1"], 1, 0, []⟩],
   fun paths => [⟨paths.length⟩],
   fun mutants => mutants.map (fun m => ⟨m.id⟩),
   true⟩

/-- Example environment whose clean initial run has two batches with
succeeded counts 3 and 4. -/
def envTwoBatches : StrykerEnv :=
  ⟨[⟨"a.js", true⟩],
   [⟨TestResult.Complete, ["t1", "t2", "t3"], 3, 0, []⟩,
    ⟨TestResult.Complete, ["t4"], 4, 0, []⟩],
   fun paths => [⟨paths.length⟩],
   fun mutants => mutants.map (fun m => ⟨m.id⟩),
   false⟩

/-- Example environment whose only unsuccessful baseline run timed out:
its status is neither Complete nor Error. -/
def envTimeoutOnly : StrykerEnv :=
  ⟨[⟨"a.js", true⟩],
   [⟨TestResult.Complete, ["t1"], 1, 0, []⟩,
    ⟨TestResult.Timeout, ["t2"], 0, 0, []⟩],
   fun paths => [⟨paths.length⟩],
   fun mutants => mutants.map (fun m => ⟨m.id⟩),
   false⟩

/-! Helper lemmas about the string comparison, `uniq`, `sortStrings`,
the logging helpers and the evaluation of `runMutationTest` on a clean
and on a failed baseline. -/

theorem strLeAux_total : ∀ as bs : List Char, strLeAux as bs = true ∨ strLeAux bs as = true := by
  intro as
  induction as with
  | nil => intro bs; exact Or.inl rfl
  | cons a as ih =>
    intro bs
    cases bs with
    | nil => exact Or.inr rfl
    | cons b bs =>
      by_cases h1 : a.toNat < b.toNat
      · exact Or.inl (by simp [strLeAux, h1])
      · by_cases h2 : b.toNat < a.toNat
        · exact Or.inr (by simp [strLeAux, h2])
        · rcases ih bs with h | h
          · exact Or.inl (by simp [strLeAux, h1, h2, h])
          · exact Or.inr (by simp [strLeAux, h1, h2, h])

theorem strLeAux_trans : ∀ as bs cs : List Char,
    strLeAux as bs = true → strLeAux bs cs = true → strLeAux as cs = true := by
  intro as
  induction as with
  | nil => intro bs cs _ _; rfl
  | cons a as ih =>
    intro bs cs h1 h2
    cases bs with
    | nil => simp [strLeAux] at h1
    | cons b bs =>
      cases cs with
      | nil => simp [strLeAux] at h2
      | cons c cs =>
        simp only [strLeAux] at h1 h2 ⊢
        by_cases hab : a.toNat < b.toNat
        · by_cases hbc : b.toNat < c.toNat
          · simp [show a.toNat < c.toNat by omega]
          · by_cases hcb : c.toNat < b.toNat
            · simp [hbc, hcb] at h2
            · simp [show a.toNat < c.toNat by omega]
        · by_cases hba : b.toNat < a.toNat
          · simp [hab, hba] at h1
          · by_cases hbc : b.toNat < c.toNat
            · simp [show a.toNat < c.toNat by omega]
            · by_cases hcb : c.toNat < b.toNat
              · simp [hbc, hcb] at h2
              · have hac : ¬ a.toNat < c.toNat := by omega
                have hca : ¬ c.toNat < a.toNat := by omega
                simp only [hab, hba, hbc, hcb, hac, hca, if_neg, if_false] at h1 h2 ⊢
                exact ih bs cs h1 h2

theorem sorted_sortStrings (xs : List String) : List.Sorted stringLeP (sortStrings xs) :=
  @List.sorted_insertionSort String stringLeP inferInstance
    ⟨fun a b => strLeAux_total a.data b.data⟩
    ⟨fun a b c => strLeAux_trans a.data b.data c.data⟩ xs

theorem perm_sortStrings (xs : List String) : (sortStrings xs).Perm xs :=
  List.perm_insertionSort stringLeP xs

theorem mem_sortStrings {s : String} {xs : List String} : s ∈ sortStrings xs ↔ s ∈ xs :=
  (perm_sortStrings xs).mem_iff

theorem mem_uniqAux {s : String} : ∀ {xs seen : List String},
    s ∈ uniqAux seen xs ↔ s ∈ xs ∧ s ∉ seen := by
  intro xs
  induction xs with
  | nil => intro seen; simp [uniqAux]
  | cons x xs ih =>
    intro seen
    by_cases hx : x ∈ seen
    · rw [uniqAux, if_pos hx, ih]
      constructor
      · rintro ⟨hsx, hss⟩
        exact ⟨List.mem_cons_of_mem x hsx, hss⟩
      · rintro ⟨hsx, hss⟩
        rcases List.mem_cons.mp hsx with h | h
        · exact absurd (h ▸ hx) hss
        · exact ⟨h, hss⟩
    · rw [uniqAux, if_neg hx]
      constructor
      · intro hmem
        rcases List.mem_cons.mp hmem with h | h
        · exact ⟨h ▸ List.mem_cons_self x xs, h ▸ hx⟩
        · rcases ih.mp h with ⟨hsx, hss⟩
          simp only [List.mem_cons, not_or] at hss
          exact ⟨List.mem_cons_of_mem x hsx, hss.2⟩
      · rintro ⟨hsx, hss⟩
        by_cases hsx2 : s = x
        · exact hsx2 ▸ List.mem_cons_self x _
        · rcases List.mem_cons.mp hsx with h | h
          · exact absurd h hsx2
          · exact List.mem_cons_of_mem x
              (ih.mpr ⟨h, by simp only [List.mem_cons, not_or]; exact ⟨hsx2, hss⟩⟩)

theorem mem_uniq {s : String} {xs : List String} : s ∈ uniq xs ↔ s ∈ xs := by
  rw [uniq, mem_uniqAux]
  simp

theorem nodup_uniqAux : ∀ (xs seen : List String), (uniqAux seen xs).Nodup := by
  intro xs
  induction xs with
  | nil => intro seen; simp [uniqAux]
  | cons x xs ih =>
    intro seen
    by_cases hx : x ∈ seen
    · rw [uniqAux, if_pos hx]
      exact ih seen
    · rw [uniqAux, if_neg hx]
      refine List.nodup_cons.mpr ⟨?_, ih (x :: seen)⟩
      intro hmem
      exact (mem_uniqAux.mp hmem).2 (List.mem_cons_self x seen)

theorem nodup_uniq (xs : List String) : (uniq xs).Nodup := nodup_uniqAux xs []

theorem totalAmountOfTests_foldl :
    ∀ (l : List RunResult) (n : Nat),
      l.foldl (fun total result =>
          if result.succeeded != 0 then total + result.succeeded else total) n
        = n + (l.map (fun r => r.succeeded)).sum := by
  intro l
  induction l with
  | nil => intro n; simp
  | cons r l ih =>
    intro n
    rw [List.foldl_cons, List.map_cons, List.sum_cons]
    by_cases h : r.succeeded = 0
    · rw [if_neg (by simp [h]), ih, h]
      omega
    · rw [if_pos (by simpa using h), ih]
      omega

theorem totalAmountOfTests_eq_sum (l : List RunResult) :
    totalAmountOfTests l = (l.map (fun r => r.succeeded)).sum := by
  rw [totalAmountOfTests, totalAmountOfTests_foldl l 0, Nat.zero_add]

theorem logFailedTests_only_logs (l : List RunResult) :
    ∀ e ∈ logFailedTests l, e.isMutationPipelineWork = false := by
  intro e he
  rw [logFailedTests] at he
  rcases List.mem_append.mp he with h | h <;> split at h <;>
    simp only [List.mem_singleton, List.not_mem_nil] at h <;> subst h <;> rfl

theorem runMutationTest_of_successful_baseline (env : StrykerEnv)
    (h : filterOutUnsuccesfulResults env.initialRunResults = []) :
    runMutationTest env =
      (Except.ok (env.runMutations (env.generateMutants
          ((env.inputFiles.filter (fun inputFile => inputFile.shouldMutate)).map
            (fun file => file.path)))),
       Event.logInitialSucceeded (totalAmountOfTests env.initialRunResults)
         :: Event.generateMutants
              ((env.inputFiles.filter (fun inputFile => inputFile.shouldMutate)).map
                (fun file => file.path))
         :: Event.logMutantsGenerated
              (env.generateMutants
                ((env.inputFiles.filter (fun inputFile => inputFile.shouldMutate)).map
                  (fun file => file.path))).length
         :: Event.matchWithMutants
              (env.generateMutants
                ((env.inputFiles.filter (fun inputFile => inputFile.shouldMutate)).map
                  (fun file => file.path)))
              env.initialRunResults
         :: Event.runMutations
              (env.generateMutants
                ((env.inputFiles.filter (fun inputFile => inputFile.shouldMutate)).map
                  (fun file => file.path)))
         :: Event.wrapUp
         :: (if env.wrapUpIsPromise then [Event.awaitWrapUp] else [])) := by
  rw [runMutationTest]
  simp only [h, List.length_nil, if_pos]

theorem runMutationTest_of_failed (env : StrykerEnv)
    (h : filterOutUnsuccesfulResults env.initialRunResults ≠ []) :
    runMutationTest env =
      (Except.error StrykerError.initialRunFailed,
       logFailedTests (filterOutUnsuccesfulResults env.initialRunResults)) := by
  rw [runMutationTest]
  rw [if_neg (fun hlen => h (List.length_eq_zero.mp hlen))]

mutual

theorem allFrozen_freeze (c : ConfigValue) : allFrozen (freezeRecursively c) = true := by
  cases c with
  | prim v => rfl
  | arr frozen items =>
    simp [freezeRecursively, allFrozen, allFrozenItems_freeze items]
  | obj frozen fields =>
    simp [freezeRecursively, allFrozen, allFrozenFields_freeze fields]

theorem allFrozenItems_freeze (vs : List ConfigValue) :
    allFrozenItems (freezeItems vs) = true := by
  cases vs with
  | nil => rfl
  | cons v vs =>
    simp [freezeItems, allFrozenItems, allFrozen_freeze v, allFrozenItems_freeze vs]

theorem allFrozenFields_freeze (fs : List (String × ConfigValue)) :
    allFrozenFields (freezeFields fs) = true := by
  cases fs with
  | nil => rfl
  | cons f fs =>
    obtain ⟨k, v⟩ := f
    simp [freezeFields, allFrozenFields, allFrozen_freeze v, allFrozenFields_freeze fs]

end

/-! Claim theorems. -/

/-- C1: if the set of unsuccessful baseline runs is non-empty,
runMutationTest aborts the pipeline with the fatal InitialRunFailed
error, and the event trace contains no mutant generation, no mutant/run
matching and no mutation execution. -/
theorem runMutationTest_aborts_on_unsuccessful_baseline (env : StrykerEnv)
    (h : filterOutUnsuccesfulResults env.initialRunResults ≠ []) :
    (runMutationTest env).1 = Except.error StrykerError.initialRunFailed ∧
    ∀ e ∈ (runMutationTest env).2, e.isMutationPipelineWork = false := by
  rw [runMutationTest_of_failed env h]
  exact ⟨rfl, logFailedTests_only_logs _⟩

/-- Witness for C1: a concrete environment whose baseline has one failed
test aborts with InitialRunFailed and performs no mutant work. -/
theorem runMutationTest_aborts_on_unsuccessful_baseline_witness :
    filterOutUnsuccesfulResults envInitialRunFailed.initialRunResults ≠ [] ∧
    ((runMutationTest envInitialRunFailed).1 = Except.error StrykerError.initialRunFailed ∧
     ∀ e ∈ (runMutationTest envInitialRunFailed).2, e.isMutationPipelineWork = false) :=
  ⟨by decide, runMutationTest_aborts_on_unsuccessful_baseline envInitialRunFailed (by decide)⟩

/-- C2: filterOutUnsuccesfulResults returns exactly those runs whose
status is not Complete, or whose status is Complete with a nonzero
failed count; consequently a list of all-Complete, zero-failed runs
filters to the empty list. -/
theorem filterOutUnsuccesfulResults_exactly_unsuccessful (runResults : List RunResult) :
    filterOutUnsuccesfulResults runResults =
      runResults.filter (fun r =>
        decide (r.result ≠ TestResult.Complete ∨
          (r.result = TestResult.Complete ∧ r.failed ≠ 0))) ∧
    ((∀ r ∈ runResults, r.result = TestResult.Complete ∧ r.failed = 0) →
      filterOutUnsuccesfulResults runResults = []) := by
  constructor
  · refine List.filter_congr ?_
    intro r _
    by_cases hc : r.result = TestResult.Complete <;> by_cases hf : r.failed = 0 <;>
      simp [hc, hf]
  · intro h
    refine List.filter_eq_nil_iff.mpr ?_
    intro r hr
    simp [(h r hr).1, (h r hr).2]

/-- Witness for C2: a list of two Complete, zero-failed runs filters to
the empty list. -/
theorem filterOutUnsuccesfulResults_exactly_unsuccessful_witness :
    filterOutUnsuccesfulResults
      [⟨TestResult.Complete, ["t1"], 1, 0, []⟩, ⟨TestResult.Complete, ["t2"], 1, 0, []⟩]
      = [] :=
  (filterOutUnsuccesfulResults_exactly_unsuccessful
    [⟨TestResult.Complete, ["t1"], 1, 0, []⟩, ⟨TestResult.Complete, ["t2"], 1, 0, []⟩]).2
    (by decide)

/-- C3: on a failed baseline gate, the failing-tests diagnostic is the
deduplicated, lexicographically sorted list of the test names of all
unsuccessful Complete runs: it is sorted, has no duplicates, and
contains exactly the names occurring in some unsuccessful Complete run;
on runs carrying the names b and a, a, c it is the list a, b, c. -/
theorem failedSpecNames_dedup_sorted (runResults : List RunResult) :
    List.Sorted stringLeP (failedSpecNames (filterOutUnsuccesfulResults runResults)) ∧
    (failedSpecNames (filterOutUnsuccesfulResults runResults)).Nodup ∧
    (∀ s, s ∈ failedSpecNames (filterOutUnsuccesfulResults runResults) ↔
      ∃ r ∈ filterOutUnsuccesfulResults runResults,
        r.result = TestResult.Complete ∧ s ∈ r.testNames) ∧
    failedSpecNames (filterOutUnsuccesfulResults
      [⟨TestResult.Complete, ["b"], 0, 1, []⟩,
       ⟨TestResult.Complete, ["a", "a", "c"], 0, 2, []⟩]) = ["a", "b", "c"] := by
  refine ⟨sorted_sortStrings _, ?_, ?_, by decide⟩
  · exact (perm_sortStrings _).nodup_iff.mpr (nodup_uniq _)
  · intro s
    rw [failedSpecNames, mem_sortStrings, mem_uniq, List.mem_flatten]
    constructor
    · rintro ⟨names, hnames, hs⟩
      rcases List.mem_map.mp hnames with ⟨r, hr, rfl⟩
      rcases List.mem_filter.mp hr with ⟨hrmem, hrc⟩
      exact ⟨r, hrmem, by simpa using hrc, hs⟩
    · rintro ⟨r, hr, hc, hs⟩
      exact ⟨r.testNames,
        List.mem_map.mpr ⟨r, List.mem_filter.mpr ⟨hr, by simp [hc]⟩, rfl⟩, hs⟩

/-- Counterexample for C4: two unsuccessful Error runs each carrying the
error message timeout produce a diagnostic listing timeout twice, so the
error messages are not deduplicated. -/
theorem initialRunErrors_not_deduplicated :
    initialRunErrors (filterOutUnsuccesfulResults
      [⟨TestResult.Error, [], 0, 0, ["timeout"]⟩,
       ⟨TestResult.Error, [], 0, 0, ["timeout"]⟩]) = ["timeout", "timeout"] ∧
    ¬ (initialRunErrors (filterOutUnsuccesfulResults
      [⟨TestResult.Error, [], 0, 0, ["timeout"]⟩,
       ⟨TestResult.Error, [], 0, 0, ["timeout"]⟩])).Nodup := by
  decide

/-- C4 (amended): on a failed baseline gate, the error-message
diagnostic contains the error messages collected across all unsuccessful
Error-status runs, sorted lexicographically but not deduplicated: every
message occurs in the diagnostic exactly as often as it occurs across
those runs. -/
theorem initialRunErrors_sorted_with_multiplicity (runResults : List RunResult) :
    List.Sorted stringLeP (initialRunErrors (filterOutUnsuccesfulResults runResults)) ∧
    ∀ m : String, (initialRunErrors (filterOutUnsuccesfulResults runResults)).count m
      = ((((filterOutUnsuccesfulResults runResults).filter
          (fun r => r.result == TestResult.Error)).map
          (fun r => r.errorMessages)).flatten).count m :=
  ⟨sorted_sortStrings _, fun m => (perm_sortStrings _).count_eq m⟩

/-- C5: when the baseline run is clean, the mutant generator is invoked
exactly once, with exactly the paths of the shouldMutate input files in
input order, and every path passed comes from a shouldMutate input
file. -/
theorem generateMutants_receives_shouldMutate_paths (env : StrykerEnv)
    (h : filterOutUnsuccesfulResults env.initialRunResults = []) :
    (runMutationTest env).2.filter Event.isGenerateMutants
      = [Event.generateMutants
          ((env.inputFiles.filter (fun inputFile => inputFile.shouldMutate)).map
            (fun file => file.path))] ∧
    ∀ p ∈ (env.inputFiles.filter (fun inputFile => inputFile.shouldMutate)).map
        (fun file => file.path),
      ∃ f ∈ env.inputFiles, f.shouldMutate = true ∧ f.path = p := by
  constructor
  · rw [runMutationTest_of_successful_baseline env h]
    by_cases hw : env.wrapUpIsPromise <;>
      simp [hw, List.filter, Event.isGenerateMutants]
  · intro p hp
    rcases List.mem_map.mp hp with ⟨f, hf, rfl⟩
    rcases List.mem_filter.mp hf with ⟨hfmem, hfm⟩
    exact ⟨f, hfmem, hfm, rfl⟩

/-- Witness for C5: in a concrete environment with input files a.js
(shouldMutate), spec.js (not shouldMutate), b.js (shouldMutate), the
generator is called once with the paths a.js, b.js. -/
theorem generateMutants_receives_shouldMutate_paths_witness :
    filterOutUnsuccesfulResults envMutateSelection.initialRunResults = [] ∧
    ((runMutationTest envMutateSelection).2.filter Event.isGenerateMutants
      = [Event.generateMutants
          ((envMutateSelection.inputFiles.filter
              (fun inputFile => inputFile.shouldMutate)).map
            (fun file => file.path))] ∧
     ∀ p ∈ (envMutateSelection.inputFiles.filter
          (fun inputFile => inputFile.shouldMutate)).map (fun file => file.path),
       ∃ f ∈ envMutateSelection.inputFiles, f.shouldMutate = true ∧ f.path = p) :=
  ⟨by decide, generateMutants_receives_shouldMutate_paths envMutateSelection (by decide)⟩

/-- C6: when the baseline run is clean, runMutationTest resolves with
the mutant result set produced by the mutation execution loop, and its
trace ends with the reporter wrapUp call, followed by awaiting the
returned promise when wrapUp returns one; resolution happens only after
those events. -/
theorem runMutationTest_awaits_wrapUp (env : StrykerEnv)
    (h : filterOutUnsuccesfulResults env.initialRunResults = []) :
    (runMutationTest env).1 = Except.ok (env.runMutations (env.generateMutants
      ((env.inputFiles.filter (fun inputFile => inputFile.shouldMutate)).map
        (fun file => file.path)))) ∧
    ∃ eventsBefore : List Event, (runMutationTest env).2 =
      eventsBefore ++ Event.wrapUp ::
        (if env.wrapUpIsPromise then [Event.awaitWrapUp] else []) := by
  rw [runMutationTest_of_successful_baseline env h]
  exact ⟨rfl,
    ⟨[Event.logInitialSucceeded _, Event.generateMutants _, Event.logMutantsGenerated _,
      Event.matchWithMutants _ _, Event.runMutations _], rfl⟩⟩

/-- Witness for C6: a concrete clean environment whose reporter wrapUp
returns a promise resolves with the mutant results after awaiting the
wrap-up. -/
theorem runMutationTest_awaits_wrapUp_witness :
    filterOutUnsuccesfulResults envWrapUpPromise.initialRunResults = [] ∧
    ((runMutationTest envWrapUpPromise).1
      = Except.ok (envWrapUpPromise.runMutations (envWrapUpPromise.generateMutants
          ((envWrapUpPromise.inputFiles.filter
              (fun inputFile => inputFile.shouldMutate)).map (fun file => file.path)))) ∧
     ∃ eventsBefore : List Event, (runMutationTest envWrapUpPromise).2 =
       eventsBefore ++ Event.wrapUp ::
         (if envWrapUpPromise.wrapUpIsPromise then [Event.awaitWrapUp] else [])) :=
  ⟨by decide, runMutationTest_awaits_wrapUp envWrapUpPromise (by decide)⟩

/-- C7: when every baseline run is successful, the gate logs the total
succeeded-test count, which equals the sum of the succeeded counts over
all baseline run results, and the mutant/run matcher receives the full,
unmodified list of baseline run results. -/
theorem initialRunSucceeded_total_and_matcher_input (env : StrykerEnv)
    (h : filterOutUnsuccesfulResults env.initialRunResults = []) :
    Event.logInitialSucceeded ((env.initialRunResults.map (fun r => r.succeeded)).sum)
      ∈ (runMutationTest env).2 ∧
    Event.matchWithMutants
      (env.generateMutants
        ((env.inputFiles.filter (fun inputFile => inputFile.shouldMutate)).map
          (fun file => file.path)))
      env.initialRunResults ∈ (runMutationTest env).2 := by
  rw [runMutationTest_of_successful_baseline env h]
  constructor
  · rw [← totalAmountOfTests_eq_sum]
    exact List.mem_cons_self _ _
  · simp

/-- Witness for C7: a concrete clean environment with succeeded counts
3 and 4 logs the total 7 and passes its two run results to the
matcher. -/
theorem initialRunSucceeded_total_and_matcher_input_witness :
    filterOutUnsuccesfulResults envTwoBatches.initialRunResults = [] ∧
    (Event.logInitialSucceeded
        ((envTwoBatches.initialRunResults.map (fun r => r.succeeded)).sum)
      ∈ (runMutationTest envTwoBatches).2 ∧
     Event.matchWithMutants
       (envTwoBatches.generateMutants
         ((envTwoBatches.inputFiles.filter
             (fun inputFile => inputFile.shouldMutate)).map (fun file => file.path)))
       envTwoBatches.initialRunResults ∈ (runMutationTest envTwoBatches).2) :=
  ⟨by decide, initialRunSucceeded_total_and_matcher_input envTwoBatches (by decide)⟩

/-- C8: the configuration produced by the Stryker constructor is
recursively frozen: after all config writers have been applied, the
config is frozen recursively, so every node of the configuration
observed by the pipeline is frozen, for every initial config and every
list of config writers. -/
theorem strykerConstructor_freezes_config_recursively (initialConfig : ConfigValue)
    (configWriters : List (ConfigValue → ConfigValue)) :
    allFrozen (strykerConstructorConfig initialConfig configWriters) = true ∧
    strykerConstructorConfig initialConfig configWriters
      = freezeRecursively (applyConfigWriters configWriters initialConfig) :=
  ⟨allFrozen_freeze _, rfl⟩

/-- C9: a baseline run whose status is neither Complete nor Error still
counts as unsuccessful, and when every unsuccessful run has such a
status the pipeline aborts with InitialRunFailed while emitting no
failing-test-names diagnostic and no error-messages diagnostic: the
trace is empty. -/
theorem timeout_counts_unsuccessful_but_silent (env : StrykerEnv)
    (h1 : filterOutUnsuccesfulResults env.initialRunResults ≠ [])
    (h2 : ∀ r ∈ filterOutUnsuccesfulResults env.initialRunResults,
        r.result ≠ TestResult.Complete ∧ r.result ≠ TestResult.Error) :
    (∀ r ∈ env.initialRunResults, r.result ≠ TestResult.Complete →
        r ∈ filterOutUnsuccesfulResults env.initialRunResults) ∧
    (runMutationTest env).1 = Except.error StrykerError.initialRunFailed ∧
    (runMutationTest env).2 = [] := by
  refine ⟨?_, ?_, ?_⟩
  · intro r hr hc
    refine List.mem_filter.mpr ⟨hr, ?_⟩
    simp [hc]
  · rw [runMutationTest_of_failed env h1]
  · rw [runMutationTest_of_failed env h1]
    have hcf : (filterOutUnsuccesfulResults env.initialRunResults).filter
        (fun r => r.result == TestResult.Complete) = [] :=
      List.filter_eq_nil_iff.mpr (fun r hr => by simp [(h2 r hr).1])
    have hef : (filterOutUnsuccesfulResults env.initialRunResults).filter
        (fun r => r.result == TestResult.Error) = [] :=
      List.filter_eq_nil_iff.mpr (fun r hr => by simp [(h2 r hr).2])
    simp [logFailedTests, failedSpecNames, initialRunErrors, hcf, hef, uniq, uniqAux,
      sortStrings, List.insertionSort]

/-- Witness for C9: a concrete environment whose only unsuccessful run
timed out aborts with InitialRunFailed and emits no diagnostics. -/
theorem timeout_counts_unsuccessful_but_silent_witness :
    filterOutUnsuccesfulResults envTimeoutOnly.initialRunResults ≠ [] ∧
    (∀ r ∈ filterOutUnsuccesfulResults envTimeoutOnly.initialRunResults,
        r.result ≠ TestResult.Complete ∧ r.result ≠ TestResult.Error) ∧
    ((∀ r ∈ envTimeoutOnly.initialRunResults, r.result ≠ TestResult.Complete →
        r ∈ filterOutUnsuccesfulResults envTimeoutOnly.initialRunResults) ∧
     (runMutationTest envTimeoutOnly).1 = Except.error StrykerError.initialRunFailed ∧
     (runMutationTest envTimeoutOnly).2 = []) :=
  ⟨by decide, by decide,
   timeout_counts_unsuccessful_but_silent envTimeoutOnly (by decide) (by decide)⟩

/-- C10: filterOutUnsuccesfulResults is order-preserving and read-only:
its output is a sublist (subsequence) of its input, and every element of
the output is an element of the input.  The embedding is a pure
function, so the input list and its elements are unchanged by
construction. -/
theorem filterOutUnsuccesfulResults_sublist (runResults : List RunResult) :
    List.Sublist (filterOutUnsuccesfulResults runResults) runResults ∧
    ∀ r ∈ filterOutUnsuccesfulResults runResults, r ∈ runResults :=
  ⟨List.filter_sublist runResults, fun _ hr => List.mem_of_mem_filter hr⟩

end Stryker
